import Mathlib

/-!
Shallow embedding of the financial aggregation and goal-allocation logic of
the FinPath frontend (files `frontend/src/contexts/BankContext.ts`,
`frontend/src/components/GoalsPage.tsx` and the HomePage component).
JavaScript numbers are modelled as rationals (ℚ); `Math.round` as
floor(x + 1/2); the JS `x || y` fallback on numbers as "y when x = 0".
The wall-clock "now" is an injected date anchor, per the design note that
period filtering depends only on the current month/year.
-/

namespace FinPath

/-- JS numeric `x || y`: `y` when `x` is falsy (0 in the rational model,
where NaN does not arise), else `x`. -/
def jsOr (x y : ℚ) : ℚ := if x = 0 then y else x

/-- JS `Math.round`: rounds half away from zero toward positive infinity,
i.e. `⌊x + 1/2⌋`. -/
def jsRound (x : ℚ) : ℤ := ⌊x + 1/2⌋

/-- A JS `Date` reduced to the fields the code reads: `getFullYear()`,
`getMonth()` (0-based, January = 0) and `getDate()`. -/
structure JSDate where
  year : ℤ
  month : ℤ
  day : ℤ
deriving DecidableEq, Repr

/-- JS `new Date(year, monthIndex, 1)`: the month index is normalized into
0..11 with the year adjusted by the floored quotient (e.g. month −1 of year
Y is December of year Y−1).  Only the month normalization is modelled; every
call site in the source passes day 1. -/
def mkMonthDate (year monthIndex : ℤ) : JSDate :=
  ⟨year + monthIndex.fdiv 12, monthIndex.fmod 12, 1⟩

/-- Lexicographic comparison on (year, month, day); this is the `>=`
comparison JS performs on `Date` values for normalized dates. -/
def dateLe (a b : JSDate) : Bool :=
  if a.year ≠ b.year then decide (a.year < b.year)
  else if a.month ≠ b.month then decide (a.month < b.month)
  else decide (a.day ≤ b.day)

/-- Transaction direction (`type` field): `credit` or `debit`. -/
inductive TxType where
  | credit
  | debit
deriving DecidableEq, Repr

/-- The fields of a `Transaction` (BankContext.ts) that the derived
computations read: posting date, direction, category and magnitude. -/
structure Transaction where
  date : JSDate
  type : TxType
  category : String
  amount : ℚ
deriving DecidableEq, Repr

/-- Sum of the `amount` fields, as in `reduce((sum, t) => sum + t.amount, 0)`. -/
def sumAmounts (txs : List Transaction) : ℚ :=
  txs.foldl (fun sum t => sum + t.amount) 0

/-- The transactions of `txs` whose date has the given 0-based month and year
(the calendar-month filter in `calculateFinancialData`). -/
def monthlyTxns (txs : List Transaction) (month year : ℤ) : List Transaction :=
  txs.filter (fun t => t.date.month == month && t.date.year == year)

/-- ASCII lowercasing of one character, modelling JS `toLowerCase` on the
ASCII strings (category and priority labels) the code compares. -/
def asciiLower (c : Char) : Char :=
  if 65 ≤ c.toNat ∧ c.toNat ≤ 90 then Char.ofNat (c.toNat + 32) else c

/-- JS `String.prototype.toLowerCase`, restricted to ASCII. -/
def jsToLower (s : String) : String := ⟨s.data.map asciiLower⟩

/-- Whether the first list is a leading segment of the second. -/
def leadsWith : List Char → List Char → Bool
  | [], _ => true
  | _ :: _, [] => false
  | p :: ps, c :: cs => p == c && leadsWith ps cs

/-- Whether `pat` occurs as a contiguous run of the second list. -/
def containsSeq (pat : List Char) : List Char → Bool
  | [] => leadsWith pat []
  | c :: cs => leadsWith pat (c :: cs) || containsSeq pat cs

/-- Substring containment, modelling JS `String.prototype.includes`. -/
def strContains (s pat : String) : Bool :=
  containsSeq pat.data s.data

/-- The `monthTxns.filter(credit).reduce(...)` pattern of
`calculateFinancialData`: summed credit amounts of the calendar month of `d`. -/
def monthIncome (txs : List Transaction) (d : JSDate) : ℚ :=
  sumAmounts ((monthlyTxns txs d.month d.year).filter (fun t => t.type == .credit))

/-- The `monthTxns.filter(debit).reduce(...)` pattern of
`calculateFinancialData`: summed debit amounts of the calendar month of `d`. -/
def monthExpense (txs : List Transaction) (d : JSDate) : ℚ :=
  sumAmounts ((monthlyTxns txs d.month d.year).filter (fun t => t.type == .debit))

/-- An insight produced by `calculateFinancialData`.  The source stores an
icon, a display string with the amount interpolated via `toLocaleString`,
and a `success`/`warning` tag; the embedding keeps the rule identity and
the numeric payload, dropping locale string formatting. -/
inductive Insight where
  | savingsSuccess (amount : ℚ)
  | expenseWarning
  | diningWarning (amount : ℚ)
deriving DecidableEq, Repr

/-- The insight-generation block of `calculateFinancialData`: rule 1
(positive savings), rule 2 (expenses above 80% of income), rule 3 (dining
spend above 5000), pushed in that order. -/
def generateInsights (totalIncome totalExpenses totalSavings diningExpenses : ℚ) :
    List Insight :=
  let insights : List Insight := []
  let insights := if totalSavings > 0 then insights ++ [.savingsSuccess totalSavings] else insights
  let insights := if totalExpenses > totalIncome * (8/10) then insights ++ [.expenseWarning] else insights
  let insights := if diningExpenses > 5000 then insights ++ [.diningWarning diningExpenses] else insights
  insights

/-- One JS-Map insertion step of the category accumulation:
`categoryMap.set(t.category, (categoryMap.get(t.category) || 0) + t.amount)`,
with the map modelled as an insertion-ordered association list. -/
def addToCategory (acc : List (String × ℚ)) (cat : String) (amt : ℚ) :
    List (String × ℚ) :=
  match acc with
  | [] => [(cat, amt)]
  | (c, v) :: rest =>
      if c = cat then (c, v + amt) :: rest
      else (c, v) :: addToCategory rest cat amt

/-- The derived `FinancialData` record (BankContext.ts).  `monthlyData`
entries keep the normalized period date in place of the source's
locale-formatted month label; `categoryData` keeps (name, value), dropping
the presentation-only color. -/
structure FinancialData where
  totalIncome : ℚ
  totalExpenses : ℚ
  totalSavings : ℚ
  monthlyData : List (JSDate × ℚ × ℚ)
  categoryData : List (String × ℚ)
  insights : List Insight
deriving DecidableEq, Repr

/-- `calculateFinancialData` (BankContext.ts): `none` models
`setFinancialData(null)` for an empty transaction list; otherwise the
aggregate for the anchor's calendar month, the trailing six months of
income/expense pairs (loop `i = 5` down to `0`), the debit category
breakdown and the generated insights. -/
def calculateFinancialData (now : JSDate) (transactions : List Transaction) :
    Option FinancialData :=
  if transactions.length = 0 then none
  else
    let currentMonth := now.month
    let currentYear := now.year
    let monthly := monthlyTxns transactions currentMonth currentYear
    let totalIncome := monthIncome transactions now
    let totalExpenses := monthExpense transactions now
    let totalSavings := totalIncome - totalExpenses
    let monthlyData := (List.range 6).map (fun (j : ℕ) =>
      let d := mkMonthDate currentYear (currentMonth - (5 - (j : ℤ)))
      (d, monthIncome transactions d, monthExpense transactions d))
    let categoryData := (monthly.filter (fun t => t.type == .debit)).foldl
      (fun acc t => addToCategory acc t.category t.amount) []
    let diningExpenses := sumAmounts (monthly.filter (fun t =>
      strContains (jsToLower t.category) "dining" && t.type == .debit))
    some { totalIncome := totalIncome
           totalExpenses := totalExpenses
           totalSavings := totalSavings
           monthlyData := monthlyData
           categoryData := categoryData
           insights := generateInsights totalIncome totalExpenses totalSavings diningExpenses }

/-- The fields of a `Goal` (GoalsPage.tsx) read by the allocation code:
identifier, target and current amounts, optional duration in months, and the
free-form priority string (absent modelled as `none`). -/
structure Goal where
  id : String
  target_amount : ℚ
  current_amount : ℚ
  duration_months : Option ℤ
  priority : Option String
deriving DecidableEq, Repr

/-- JS `x || y` where `x` is an optional number field: `y` when the field is
absent (`undefined`) or 0, else the field's value. -/
def jsOrOpt (x : Option ℤ) (y : ℤ) : ℤ :=
  match x with
  | none => y
  | some v => if v = 0 then y else v

/-- The `monthly_contribution` computation in `handleAddGoal` /
`handleUpdateGoal` (GoalsPage.tsx), after form parsing: `ta` is the parsed
target amount, `dm` the parsed duration (an absent form field parses as 0),
`priority` the form's priority string (the source's `(priority || '')` is
the identity on strings once absence is read as `''`). -/
def monthlyContribution (ta : ℚ) (dm : ℤ) (priority : String)
    (avgMonthlySavings : ℚ) : ℤ :=
  let targetPerMonth : ℚ := if dm > 0 then ta / (dm : ℚ) else 0
  let k := jsToLower priority
  let weight : ℚ := if k = "high" then 6/10 else if k = "low" then 25/100 else 4/10
  let cap : ℚ := (jsRound (weight * avgMonthlySavings) : ℚ)
  let val : ℚ := min (jsOr targetPerMonth 0) (jsOr cap 0)
  max 0 (jsRound val)

/-- `weightOf` inside `computeRebalanceAllocations` (GoalsPage.tsx):
priority score high = 3, medium = 2, anything else (including `low` and
absent) = 1. -/
def weightOf (p : Option String) : ℚ :=
  let k := jsToLower (p.getD "")
  if k = "high" then 3
  else if k = "medium" then 2
  else 1

/-- `computeRebalanceAllocations` (GoalsPage.tsx): per-goal allocation
`max(0, min(base, paceCap))` where `base` is the priority share of the
available savings and `paceCap` the rounded remaining-over-months pace.
The source stores the result in a record keyed by goal id; the embedding
keeps the same (id, allocation) pairs in goal order. -/
def computeRebalanceAllocations (goals : List Goal) (avgMonthlySavings : ℚ) :
    List (String × ℤ) :=
  if goals.length = 0 then []
  else
    let weights := goals.map (fun g => weightOf g.priority)
    let sumW := jsOr (weights.foldl (fun a b => a + b) 0) 1
    (goals.zip weights).map (fun gw =>
      let g := gw.1
      let share := gw.2 / sumW
      let base := jsRound (share * avgMonthlySavings)
      let remaining := max 0 (g.target_amount - g.current_amount)
      let months := max 1 (jsOrOpt g.duration_months 6)
      let targetPerMonth := jsRound (remaining / (months : ℚ))
      (g.id, max 0 (min base targetPerMonth)))

/-- The signed six-month net inside `calculateAvgMonthlySavings`
(GoalsPage.tsx): transactions on or after the first of the month six months
before the anchor, credits added and debits subtracted, divided by 6. -/
def trailingMonthlyNet (now : JSDate) (transactions : List Transaction) : ℚ :=
  let sixMonthsAgo := mkMonthDate now.year (now.month - 6)
  let recentTransactions := transactions.filter (fun t => dateLe sixMonthsAgo t.date)
  (recentTransactions.foldl (fun acc t =>
    if t.type == .credit then acc + t.amount else acc - t.amount) 0) / 6

/-- `calculateAvgMonthlySavings` (GoalsPage.tsx): 3500 for an empty ledger,
otherwise `Math.max(monthlySavings, 0) || 3500`. -/
def calculateAvgMonthlySavings (now : JSDate) (transactions : List Transaction) : ℚ :=
  if transactions.length = 0 then 3500
  else jsOr (max (trailingMonthlyNet now transactions) 0) 3500

/-- One row of the HomePage `budgetRules` array: the label and the progress
value; the presentation-only `amount` display string is dropped. -/
structure BudgetRule where
  label : String
  value : ℚ
deriving DecidableEq, Repr

/-- The `budgetRules` array of the HomePage component: needs/wants/savings
progress percentages, each `min(consumed / max(target, 1) * 100, 100)` with
needs/wants consumed proxied by ratio shares of total expenses and the
savings bucket consuming `totalSavings`. -/
def budgetRules (fd : FinancialData) : List BudgetRule :=
  [ { label := "Needs (50%)"
      value := min ((fd.totalExpenses * (5/10)) / max (fd.totalIncome * (5/10)) 1 * 100) 100 }
  , { label := "Wants (30%)"
      value := min ((fd.totalExpenses * (3/10)) / max (fd.totalIncome * (3/10)) 1 * 100) 100 }
  , { label := "Savings (20%)"
      value := min (fd.totalSavings / max (fd.totalIncome * (2/10)) 1 * 100) 100 } ]

theorem jsOr_zero (x : ℚ) : jsOr x 0 = x := by
  unfold jsOr
  split <;> simp_all

theorem jsOr_of_ne {x : ℚ} (y : ℚ) (h : x ≠ 0) : jsOr x y = x := by
  unfold jsOr
  simp [h]

theorem jsRound_intCast (c : ℤ) : jsRound ((c : ℚ)) = c := by
  unfold jsRound
  rw [Int.floor_int_add]
  norm_num

theorem jsRound_mono {x y : ℚ} (h : x ≤ y) : jsRound x ≤ jsRound y :=
  Int.floor_le_floor (by linarith)

theorem jsRound_nonneg {x : ℚ} (h : 0 ≤ x) : 0 ≤ jsRound x :=
  Int.le_floor.mpr (by push_cast; linarith)

theorem jsRound_nonpos {x : ℚ} (h : x ≤ 0) : jsRound x ≤ 0 := by
  have h0 : jsRound ((0 : ℤ) : ℚ) = 0 := jsRound_intCast 0
  have h2 : jsRound x ≤ jsRound ((0 : ℤ) : ℚ) := jsRound_mono (by exact_mod_cast h)
  omega

/-- The priority-weight table as the specification states it:
high → 0.6, medium → 0.4, low → 0.25 (case-insensitive, with the source's
default branch mapping every other string to 0.4). -/
def priorityWeight (priority : String) : ℚ :=
  if jsToLower priority = "high" then 6/10
  else if jsToLower priority = "low" then 25/100
  else 4/10

/-- The contribution formula as the specification states it:
`max(0, round(min(targetPerMonth, cap)))` with
`targetPerMonth = targetAmount/durationMonths` when the duration is
positive (else 0) and `cap = round(priorityWeight × savings)`. -/
def specContribution (ta : ℚ) (dm : ℤ) (priority : String) (savings : ℚ) : ℤ :=
  let targetPerMonth : ℚ := if dm > 0 then ta / (dm : ℚ) else 0
  max 0 (jsRound (min targetPerMonth ((jsRound (priorityWeight priority * savings) : ℤ) : ℚ)))

/-- C5: for an empty transaction list `calculateFinancialData` yields `none`
(the source's `setFinancialData(null)`), not a zero-valued aggregate, so no
aggregate and in particular no insight list is produced. -/
theorem empty_ledger_financial_data_none (now : JSDate) :
    calculateFinancialData now [] = none := rfl

/-- C8: a goal whose parsed duration is 0 (the parse of an absent or zero
form field) gets monthly contribution 0, for every priority string, target
amount and available savings. -/
theorem zero_duration_contribution_zero (ta : ℚ) (priority : String) (s : ℚ) :
    monthlyContribution ta 0 priority s = 0 := by
  unfold monthlyContribution
  simp only [show ¬((0 : ℤ) > 0) by norm_num, if_false, jsOr_zero]
  exact max_eq_left (jsRound_nonpos (min_le_left _ _))

/-- C2: the monthly contribution computed on goal creation/update equals the
spec formula `max(0, round(min(targetPerMonth, round(priorityWeight ×
savings))))`, lies in `[0, round(priorityWeight × savings)]` whenever the
available savings are nonnegative, and gives 2100 on the scenario goal
(target 100000, duration 6, high priority, savings 3500). -/
theorem contribution_formula_and_bounds (ta : ℚ) (dm : ℤ) (priority : String)
    (s : ℚ) (hs : 0 ≤ s) :
    monthlyContribution ta dm priority s = specContribution ta dm priority s ∧
    0 ≤ monthlyContribution ta dm priority s ∧
    monthlyContribution ta dm priority s ≤ jsRound (priorityWeight priority * s) ∧
    monthlyContribution 100000 6 "high" 3500 = 2100 := by
  have hw : 0 ≤ priorityWeight priority := by
    unfold priorityWeight
    split <;> [norm_num; skip]
    split <;> norm_num
  have heq : monthlyContribution ta dm priority s = specContribution ta dm priority s := by
    unfold monthlyContribution specContribution priorityWeight
    simp only [jsOr_zero]
  have hcap : 0 ≤ jsRound (priorityWeight priority * s) :=
    jsRound_nonneg (mul_nonneg hw hs)
  refine ⟨heq, ?_, ?_, ?_⟩
  · rw [heq]
    unfold specContribution
    exact le_max_left _ _
  · rw [heq]
    unfold specContribution
    have hle : jsRound (min (if dm > 0 then ta / (dm : ℚ) else 0)
        ((jsRound (priorityWeight priority * s) : ℤ) : ℚ)) ≤
        jsRound (priorityWeight priority * s) := by
      calc jsRound (min (if dm > 0 then ta / (dm : ℚ) else 0)
            ((jsRound (priorityWeight priority * s) : ℤ) : ℚ))
          ≤ jsRound ((jsRound (priorityWeight priority * s) : ℤ) : ℚ) :=
            jsRound_mono (min_le_right _ _)
        _ = jsRound (priorityWeight priority * s) := jsRound_intCast _
    exact max_le hcap hle
  · norm_num +decide [monthlyContribution, jsToLower, asciiLower, jsOr, jsRound]

/-- Closed instance of `contribution_formula_and_bounds` at the scenario
goal: target 100000, duration 6 months, high priority, savings 3500. -/
theorem contribution_formula_and_bounds_check :
    monthlyContribution 100000 6 "high" 3500 = specContribution 100000 6 "high" 3500 ∧
    0 ≤ monthlyContribution 100000 6 "high" 3500 ∧
    monthlyContribution 100000 6 "high" 3500 ≤ jsRound (priorityWeight "high" * 3500) ∧
    monthlyContribution 100000 6 "high" 3500 = 2100 :=
  contribution_formula_and_bounds 100000 6 "high" 3500 (by norm_num)

/-- C7: the rebalance allocations are not globally normalized: three
high-priority goals with ample remaining amounts and savings 5 each get
`round(5/3) = 2`, summing to 6 > 5. -/
theorem rebalance_sum_can_exceed_savings :
    ∃ (goals : List Goal) (avgMonthlySavings : ℚ),
      0 ≤ avgMonthlySavings ∧
      avgMonthlySavings <
        (((computeRebalanceAllocations goals avgMonthlySavings).map
          (fun p => ((p.2 : ℤ) : ℚ))).sum) := by
  refine ⟨[⟨"a", 1000, 0, some 1, some "high"⟩, ⟨"b", 1000, 0, some 1, some "high"⟩,
           ⟨"c", 1000, 0, some 1, some "high"⟩], 5, by norm_num, ?_⟩
  norm_num +decide [computeRebalanceAllocations, weightOf, jsOr, jsRound, jsOrOpt,
    jsToLower, asciiLower, List.zip]

theorem foldl_add_eq_sum (l : List ℚ) (a : ℚ) :
    l.foldl (fun x y => x + y) a = a + l.sum := by
  induction l generalizing a with
  | nil => simp
  | cons b t ih => simp [ih, add_assoc]

theorem zip_map_self {α β γ : Type} (h : α → β) (f : α × β → γ) (l : List α) :
    (l.zip (l.map h)).map f = l.map (fun a => f (a, h a)) := by
  induction l with
  | nil => rfl
  | cons a t ih => simp [ih]

theorem weightOf_pos (p : Option String) : 0 < weightOf p := by
  have h : weightOf p = if jsToLower (p.getD "") = "high" then 3
      else if jsToLower (p.getD "") = "medium" then 2 else 1 := rfl
  rw [h]
  split <;> [norm_num; skip]
  split <;> norm_num

/-- Sum of the rebalance priority scores (high 3, medium 2, otherwise 1) of
a goal list, as the specification states it. -/
def sumScores (goals : List Goal) : ℚ :=
  (goals.map (fun g => weightOf g.priority)).sum

/-- The spec's base allocation for one goal: the rounded priority share of
the available savings. -/
def specBase (goals : List Goal) (savings : ℚ) (g : Goal) : ℤ :=
  jsRound (weightOf g.priority / sumScores goals * savings)

/-- The spec's pace cap for one goal: the rounded remaining amount over the
months used (the duration, defaulting to 6 when absent or 0, floored at 1). -/
def specPaceCap (g : Goal) : ℤ :=
  jsRound (max 0 (g.target_amount - g.current_amount) /
    ((max 1 (jsOrOpt g.duration_months 6) : ℤ) : ℚ))

/-- C3: for a nonempty goal list the rebalance computation pairs each goal's
id with `max(0, min(base, paceCap))`, base being the rounded priority share
(scores 3/2/1) of the available savings and paceCap the rounded
remaining-over-months pace. -/
theorem rebalance_allocation_formula (goals : List Goal) (savings : ℚ)
    (hs : 0 ≤ savings) (i : ℕ) (hi : i < goals.length) :
    (computeRebalanceAllocations goals savings)[i]? =
      some ((goals.get ⟨i, hi⟩).id,
        max 0 (min (specBase goals savings (goals.get ⟨i, hi⟩))
          (specPaceCap (goals.get ⟨i, hi⟩)))) := by
  have hne : goals ≠ [] := by
    intro h
    rw [h] at hi
    exact absurd hi (by simp)
  have hlen : ¬ goals.length = 0 := by
    simpa [List.length_eq_zero] using hne
  have hsum : (goals.map (fun g => weightOf g.priority)).foldl (fun x y => x + y) 0 =
      sumScores goals := by
    rw [foldl_add_eq_sum, zero_add, sumScores]
  have hpos : 0 < sumScores goals := by
    unfold sumScores
    refine List.sum_pos _ (fun x hx => ?_) (by simpa using hne)
    rcases List.mem_map.mp hx with ⟨g, _, rfl⟩
    exact weightOf_pos _
  have hcalc : computeRebalanceAllocations goals savings =
      goals.map (fun g =>
        (g.id, max 0 (min (specBase goals savings g) (specPaceCap g)))) := by
    unfold computeRebalanceAllocations
    rw [if_neg hlen]
    dsimp only
    rw [hsum, jsOr_of_ne _ (ne_of_gt hpos), zip_map_self]
    simp [specBase, specPaceCap]
  rw [hcalc]
  simp [List.getElem?_map, List.getElem?_eq_getElem hi, List.get_eq_getElem]

/-- Closed instance of `rebalance_allocation_formula`: the scenario-E pair
(high and low priority, savings 4000), checked at index 0 with the base and
pace cap evaluated. -/
theorem rebalance_allocation_formula_check :
    (computeRebalanceAllocations
        [⟨"a", 24000, 0, some 6, some "high"⟩, ⟨"b", 9000, 1000, some 8, some "low"⟩]
        4000)[0]? =
      some ("a",
        max 0 (min (specBase
          [⟨"a", 24000, 0, some 6, some "high"⟩, ⟨"b", 9000, 1000, some 8, some "low"⟩]
          4000 ⟨"a", 24000, 0, some 6, some "high"⟩)
          (specPaceCap ⟨"a", 24000, 0, some 6, some "high"⟩))) :=
  rebalance_allocation_formula
    [⟨"a", 24000, 0, some 6, some "high"⟩, ⟨"b", 9000, 1000, some 8, some "low"⟩]
    4000 (by norm_num) 0 (by norm_num)

/-- C10: the available-monthly-savings baseline is always positive: 3500 for
an empty ledger, 3500 whenever the trailing six-month net monthly average is
zero or negative, and that net average itself when it is positive. -/
theorem avg_monthly_savings_policy (now : JSDate) (txs : List Transaction) :
    0 < calculateAvgMonthlySavings now txs ∧
    calculateAvgMonthlySavings now [] = 3500 ∧
    (trailingMonthlyNet now txs ≤ 0 → calculateAvgMonthlySavings now txs = 3500) ∧
    (txs ≠ [] → 0 < trailingMonthlyNet now txs →
      calculateAvgMonthlySavings now txs = trailingMonthlyNet now txs) := by
  have hnil : calculateAvgMonthlySavings now [] = 3500 := rfl
  by_cases hl : txs.length = 0
  · have he : txs = [] := List.length_eq_zero.mp hl
    subst he
    exact ⟨by rw [hnil]; norm_num, hnil, fun _ => hnil, fun hne _ => absurd rfl hne⟩
  · have hcalc : calculateAvgMonthlySavings now txs =
        jsOr (max (trailingMonthlyNet now txs) 0) 3500 := by
      unfold calculateAvgMonthlySavings
      rw [if_neg hl]
    rcases le_or_lt (trailingMonthlyNet now txs) 0 with hle | hpos
    · have h3 : calculateAvgMonthlySavings now txs = 3500 := by
        rw [hcalc, max_eq_right hle]
        unfold jsOr
        simp
      exact ⟨by rw [h3]; norm_num, hnil, fun _ => h3,
        fun _ hpos => absurd hpos (not_lt.mpr hle)⟩
    · have h4 : calculateAvgMonthlySavings now txs = trailingMonthlyNet now txs := by
        rw [hcalc, max_eq_left hpos.le, jsOr_of_ne _ (ne_of_gt hpos)]
      exact ⟨by rw [h4]; exact hpos, hnil,
        fun hle => absurd hpos (not_lt.mpr hle), fun _ _ => h4⟩

/-- Closed instance of `avg_monthly_savings_policy`: a single recent credit
of 600 gives a positive net average of 100, which is returned unchanged. -/
theorem avg_monthly_savings_policy_check :
    trailingMonthlyNet ⟨2025, 10, 5⟩ [⟨⟨2025, 9, 1⟩, .credit, "salary", 600⟩] = 100 ∧
    calculateAvgMonthlySavings ⟨2025, 10, 5⟩ [⟨⟨2025, 9, 1⟩, .credit, "salary", 600⟩] = 100 := by
  have hnet : trailingMonthlyNet ⟨2025, 10, 5⟩ [⟨⟨2025, 9, 1⟩, .credit, "salary", 600⟩] = 100 := by
    norm_num +decide [trailingMonthlyNet, dateLe, mkMonthDate]
  refine ⟨hnet, ?_⟩
  have h := (avg_monthly_savings_policy ⟨2025, 10, 5⟩
      [⟨⟨2025, 9, 1⟩, .credit, "salary", 600⟩]).2.2.2
    (List.cons_ne_nil _ _) (by rw [hnet]; norm_num)
  rw [h, hnet]

theorem foldl_amount (l : List Transaction) (a : ℚ) :
    l.foldl (fun s t => s + t.amount) a = a + (l.map (fun t => t.amount)).sum := by
  induction l generalizing a with
  | nil => simp
  | cons b t ih => simp [ih, add_assoc]

theorem sumAmounts_eq (l : List Transaction) :
    sumAmounts l = (l.map (fun t => t.amount)).sum := by
  unfold sumAmounts
  rw [foldl_amount, zero_add]

/-- Specification-side current-month income: the sum over all transactions
of the amounts of credit transactions posted in the anchor's calendar month. -/
def specMonthIncome (now : JSDate) (txs : List Transaction) : ℚ :=
  (txs.map (fun t =>
    if t.date.month = now.month ∧ t.date.year = now.year ∧ t.type = TxType.credit
    then t.amount else 0)).sum

/-- Specification-side current-month expenses: the sum over all transactions
of the amounts of debit transactions posted in the anchor's calendar month. -/
def specMonthExpense (now : JSDate) (txs : List Transaction) : ℚ :=
  (txs.map (fun t =>
    if t.date.month = now.month ∧ t.date.year = now.year ∧ t.type = TxType.debit
    then t.amount else 0)).sum

/-- Specification-side current-month dining spend: summed debit amounts in
categories whose lowercasing contains "dining". -/
def specDiningTotal (now : JSDate) (txs : List Transaction) : ℚ :=
  (txs.map (fun t =>
    if t.date.month = now.month ∧ t.date.year = now.year ∧ t.type = TxType.debit ∧
        strContains (jsToLower t.category) "dining" = true
    then t.amount else 0)).sum

theorem sum_filter_map (p : Transaction → Bool) (txs : List Transaction) :
    ((txs.filter p).map (fun t => t.amount)).sum =
      (txs.map (fun t => if p t then t.amount else 0)).sum := by
  induction txs with
  | nil => rfl
  | cons a t ih =>
    by_cases h : p a <;> simp [List.filter_cons, h, ih]

theorem monthIncome_eq_spec (now : JSDate) (txs : List Transaction) :
    monthIncome txs now = specMonthIncome now txs := by
  unfold monthIncome specMonthIncome monthlyTxns
  rw [sumAmounts_eq, List.filter_filter, sum_filter_map]
  refine congrArg List.sum (List.map_congr_left (fun t _ => ?_))
  by_cases h1 : t.date.month = now.month <;> by_cases h2 : t.date.year = now.year <;>
    by_cases h3 : t.type = TxType.credit <;> simp [h1, h2, h3]

theorem monthExpense_eq_spec (now : JSDate) (txs : List Transaction) :
    monthExpense txs now = specMonthExpense now txs := by
  unfold monthExpense specMonthExpense monthlyTxns
  rw [sumAmounts_eq, List.filter_filter, sum_filter_map]
  refine congrArg List.sum (List.map_congr_left (fun t _ => ?_))
  by_cases h1 : t.date.month = now.month <;> by_cases h2 : t.date.year = now.year <;>
    by_cases h3 : t.type = TxType.debit <;> simp [h1, h2, h3]

theorem diningExpenses_eq_spec (now : JSDate) (txs : List Transaction) :
    sumAmounts ((monthlyTxns txs now.month now.year).filter
      (fun t => strContains (jsToLower t.category) "dining" && t.type == TxType.debit)) =
    specDiningTotal now txs := by
  unfold specDiningTotal monthlyTxns
  rw [sumAmounts_eq, List.filter_filter, sum_filter_map]
  refine congrArg List.sum (List.map_congr_left (fun t _ => ?_))
  by_cases h1 : t.date.month = now.month <;> by_cases h2 : t.date.year = now.year <;>
    by_cases h3 : t.type = TxType.debit <;>
      by_cases h4 : strContains (jsToLower t.category) "dining" = true <;>
        simp [h1, h2, h3, h4]

/-- C1: for a nonempty ledger the monthly aggregate exists and satisfies
conservation: `totalIncome` is the current-month credit sum, `totalExpenses`
the current-month debit sum, and `totalSavings` is exactly their difference
(possibly negative). -/
theorem aggregate_conservation (now : JSDate) (txs : List Transaction)
    (h : txs ≠ []) :
    ∃ fd, calculateFinancialData now txs = some fd ∧
      fd.totalIncome = specMonthIncome now txs ∧
      fd.totalExpenses = specMonthExpense now txs ∧
      fd.totalSavings = fd.totalIncome - fd.totalExpenses := by
  have hlen : ¬ txs.length = 0 := by
    simpa [List.length_eq_zero] using h
  unfold calculateFinancialData
  rw [if_neg hlen]
  dsimp only
  exact ⟨_, rfl, monthIncome_eq_spec now txs, monthExpense_eq_spec now txs, rfl⟩

/-- Closed instance of `aggregate_conservation` at the scenario-A ledger:
a credit of 45000 and a debit of 8200 in November 2025. -/
theorem aggregate_conservation_check :
    ∃ fd, calculateFinancialData ⟨2025, 10, 5⟩
        [⟨⟨2025, 10, 1⟩, .credit, "salary", 45000⟩,
         ⟨⟨2025, 10, 3⟩, .debit, "groceries", 8200⟩] = some fd ∧
      fd.totalIncome = specMonthIncome ⟨2025, 10, 5⟩
        [⟨⟨2025, 10, 1⟩, .credit, "salary", 45000⟩,
         ⟨⟨2025, 10, 3⟩, .debit, "groceries", 8200⟩] ∧
      fd.totalExpenses = specMonthExpense ⟨2025, 10, 5⟩
        [⟨⟨2025, 10, 1⟩, .credit, "salary", 45000⟩,
         ⟨⟨2025, 10, 3⟩, .debit, "groceries", 8200⟩] ∧
      fd.totalSavings = fd.totalIncome - fd.totalExpenses :=
  aggregate_conservation ⟨2025, 10, 5⟩
    [⟨⟨2025, 10, 1⟩, .credit, "salary", 45000⟩,
     ⟨⟨2025, 10, 3⟩, .debit, "groceries", 8200⟩] (List.cons_ne_nil _ _)

theorem generateInsights_eq (a b c d : ℚ) :
    generateInsights a b c d =
      (if 0 < c then [Insight.savingsSuccess c] else []) ++
      (if a * (8/10) < b then [Insight.expenseWarning] else []) ++
      (if 5000 < d then [Insight.diningWarning d] else []) := by
  unfold generateInsights
  by_cases h1 : 0 < c <;> by_cases h2 : a * (8/10) < b <;> by_cases h3 : 5000 < d <;>
    simp [h1, h2, h3]

/-- C9: for a nonempty ledger the insight list is exactly the concatenation,
in rule order 1-2-3 and with the rules independent of one another, of: the
savings-success insight carrying the savings amount iff savings are
positive; the expense-ratio warning iff expenses exceed 80% of income; and
the dining warning carrying the dining total iff current-month dining debits
exceed 5000. -/
theorem insights_rule_order (now : JSDate) (txs : List Transaction)
    (h : txs ≠ []) :
    ∃ fd, calculateFinancialData now txs = some fd ∧
      fd.insights =
        (if 0 < fd.totalSavings then [Insight.savingsSuccess fd.totalSavings] else []) ++
        (if fd.totalIncome * (8/10) < fd.totalExpenses then [Insight.expenseWarning] else []) ++
        (if 5000 < specDiningTotal now txs
         then [Insight.diningWarning (specDiningTotal now txs)] else []) := by
  have hlen : ¬ txs.length = 0 := by
    simpa [List.length_eq_zero] using h
  unfold calculateFinancialData
  rw [if_neg hlen]
  dsimp only
  exact ⟨_, rfl, by rw [generateInsights_eq, diningExpenses_eq_spec]⟩

/-- Closed instance of `insights_rule_order` at a ledger where all three
rules fire: income 7000, expenses 6000 all in dining. -/
theorem insights_rule_order_check :
    ∃ fd, calculateFinancialData ⟨2025, 10, 5⟩
        [⟨⟨2025, 10, 1⟩, .credit, "salary", 7000⟩,
         ⟨⟨2025, 10, 3⟩, .debit, "Dining", 6000⟩] = some fd ∧
      fd.insights =
        (if 0 < fd.totalSavings then [Insight.savingsSuccess fd.totalSavings] else []) ++
        (if fd.totalIncome * (8/10) < fd.totalExpenses then [Insight.expenseWarning] else []) ++
        (if 5000 < specDiningTotal ⟨2025, 10, 5⟩
            [⟨⟨2025, 10, 1⟩, .credit, "salary", 7000⟩,
             ⟨⟨2025, 10, 3⟩, .debit, "Dining", 6000⟩]
         then [Insight.diningWarning (specDiningTotal ⟨2025, 10, 5⟩
            [⟨⟨2025, 10, 1⟩, .credit, "salary", 7000⟩,
             ⟨⟨2025, 10, 3⟩, .debit, "Dining", 6000⟩])] else []) :=
  insights_rule_order ⟨2025, 10, 5⟩
    [⟨⟨2025, 10, 1⟩, .credit, "salary", 7000⟩,
     ⟨⟨2025, 10, 3⟩, .debit, "Dining", 6000⟩] (List.cons_ne_nil _ _)

theorem mkMonthDate_concrete (Y i q r Y' : ℤ) (hdiv : Int.fdiv i 12 = q)
    (hmod : Int.fmod i 12 = r) (hY : Y + q = Y') :
    mkMonthDate Y i = ⟨Y', r, 1⟩ := by
  unfold mkMonthDate
  rw [hdiv, hmod, hY]

/-- C4 refutation: anchored at January 2024, the trailing six-month sequence
is August 2023 through January 2024; July 2023 (month index 6 of year
anchor−1) is not among the produced periods, contrary to the claimed
July-through-January coverage (which would span seven months). -/
theorem trailing_window_january_refuted :
    ((calculateFinancialData ⟨2024, 0, 15⟩ [⟨⟨2024, 0, 2⟩, .credit, "salary", 100⟩]).map
        (fun fd => fd.monthlyData.map Prod.fst)) =
      some [⟨2023, 7, 1⟩, ⟨2023, 8, 1⟩, ⟨2023, 9, 1⟩, ⟨2023, 10, 1⟩, ⟨2023, 11, 1⟩,
        ⟨2024, 0, 1⟩] ∧
    (⟨2023, 6, 1⟩ : JSDate) ∉
      [(⟨2023, 7, 1⟩ : JSDate), ⟨2023, 8, 1⟩, ⟨2023, 9, 1⟩, ⟨2023, 10, 1⟩, ⟨2023, 11, 1⟩,
        ⟨2024, 0, 1⟩] := by
  constructor
  · decide
  · decide

/-- C4 (amended): anchored at January of year Y, the trailing six-month data
lists, oldest to newest, August through December of year Y−1 followed by
January of year Y, each month paired with its credit and debit sums; month
indices below zero roll over into the prior year. -/
theorem trailing_window_january_rollover (Y d : ℤ) (txs : List Transaction)
    (h : txs ≠ []) :
    ∃ fd, calculateFinancialData ⟨Y, 0, d⟩ txs = some fd ∧
      fd.monthlyData =
        [(⟨Y - 1, 7, 1⟩ : JSDate), ⟨Y - 1, 8, 1⟩, ⟨Y - 1, 9, 1⟩, ⟨Y - 1, 10, 1⟩,
         ⟨Y - 1, 11, 1⟩, ⟨Y, 0, 1⟩].map
          (fun p => (p, monthIncome txs p, monthExpense txs p)) := by
  have hlen : ¬ txs.length = 0 := by
    simpa [List.length_eq_zero] using h
  have e0 : mkMonthDate Y (0 - (5 - ((0 : ℕ) : ℤ))) = (⟨Y - 1, 7, 1⟩ : JSDate) := by
    rw [show (0 - (5 - ((0 : ℕ) : ℤ))) = -5 by norm_num]
    exact mkMonthDate_concrete Y (-5) (-1) 7 (Y - 1) (by decide) (by decide) (by omega)
  have e1 : mkMonthDate Y (0 - (5 - ((1 : ℕ) : ℤ))) = (⟨Y - 1, 8, 1⟩ : JSDate) := by
    rw [show (0 - (5 - ((1 : ℕ) : ℤ))) = -4 by norm_num]
    exact mkMonthDate_concrete Y (-4) (-1) 8 (Y - 1) (by decide) (by decide) (by omega)
  have e2 : mkMonthDate Y (0 - (5 - ((2 : ℕ) : ℤ))) = (⟨Y - 1, 9, 1⟩ : JSDate) := by
    rw [show (0 - (5 - ((2 : ℕ) : ℤ))) = -3 by norm_num]
    exact mkMonthDate_concrete Y (-3) (-1) 9 (Y - 1) (by decide) (by decide) (by omega)
  have e3 : mkMonthDate Y (0 - (5 - ((3 : ℕ) : ℤ))) = (⟨Y - 1, 10, 1⟩ : JSDate) := by
    rw [show (0 - (5 - ((3 : ℕ) : ℤ))) = -2 by norm_num]
    exact mkMonthDate_concrete Y (-2) (-1) 10 (Y - 1) (by decide) (by decide) (by omega)
  have e4 : mkMonthDate Y (0 - (5 - ((4 : ℕ) : ℤ))) = (⟨Y - 1, 11, 1⟩ : JSDate) := by
    rw [show (0 - (5 - ((4 : ℕ) : ℤ))) = -1 by norm_num]
    exact mkMonthDate_concrete Y (-1) (-1) 11 (Y - 1) (by decide) (by decide) (by omega)
  have e5 : mkMonthDate Y (0 - (5 - ((5 : ℕ) : ℤ))) = (⟨Y, 0, 1⟩ : JSDate) := by
    rw [show (0 - (5 - ((5 : ℕ) : ℤ))) = 0 by norm_num]
    exact mkMonthDate_concrete Y 0 0 0 Y (by decide) (by decide) (by omega)
  unfold calculateFinancialData
  rw [if_neg hlen]
  dsimp only
  refine ⟨_, rfl, ?_⟩
  rw [show List.range 6 = [0, 1, 2, 3, 4, 5] from rfl]
  simp only [List.map_cons, List.map_nil]
  rw [e0, e1, e2, e3, e4, e5]

/-- Closed instance of `trailing_window_january_rollover` at year 2024 with
a one-transaction ledger. -/
theorem trailing_window_january_rollover_check :
    ∃ fd, calculateFinancialData ⟨2024, 0, 15⟩
        [⟨⟨2024, 0, 2⟩, .credit, "salary", 100⟩] = some fd ∧
      fd.monthlyData =
        [((⟨2024 - 1, 7, 1⟩ : JSDate)), ⟨2024 - 1, 8, 1⟩, ⟨2024 - 1, 9, 1⟩,
         ⟨2024 - 1, 10, 1⟩, ⟨2024 - 1, 11, 1⟩, ⟨2024, 0, 1⟩].map
          (fun p => (p, monthIncome [⟨⟨2024, 0, 2⟩, .credit, "salary", 100⟩] p,
            monthExpense [⟨⟨2024, 0, 2⟩, .credit, "salary", 100⟩] p)) :=
  trailing_window_january_rollover 2024 15
    [⟨⟨2024, 0, 2⟩, .credit, "salary", 100⟩] (List.cons_ne_nil _ _)

/-- The guarded progress formula as the specification states it, with
epsilon = 1: `min(consumed / max(allocatedTarget, 1) × 100, 100)`. -/
def bucketProgress (consumed allocatedTarget : ℚ) : ℚ :=
  min (consumed / max allocatedTarget 1 * 100) 100

theorem bucketProgress_le_100 (c t : ℚ) : bucketProgress c t ≤ 100 :=
  min_le_right _ _

theorem bucketProgress_nonneg {c : ℚ} (t : ℚ) (hc : 0 ≤ c) :
    0 ≤ bucketProgress c t := by
  unfold bucketProgress
  have hden : (0 : ℚ) ≤ max t 1 := le_trans zero_le_one (le_max_right _ _)
  exact le_min (mul_nonneg (div_nonneg hc hden) (by norm_num)) (by norm_num)

/-- C6 refutation: on the aggregate of a single current-month debit of 100
(income 0, savings −100) the savings bucket's progress value is −10000,
which is below 0, so the progress percentages do not all lie in [0, 100]. -/
theorem budget_progress_refuted :
    ((calculateFinancialData ⟨2025, 10, 5⟩ [⟨⟨2025, 10, 3⟩, .debit, "groceries", 100⟩]).map
        (fun fd => (budgetRules fd).map (fun b => b.value))) =
      some [100, 100, -10000] ∧
    ((-10000 : ℚ) < 0) := by
  constructor
  · norm_num +decide [calculateFinancialData, budgetRules, monthIncome, monthExpense,
      monthlyTxns, sumAmounts, List.filter_cons, min_def, max_def]
  · norm_num

/-- C6 (amended): every budget bucket's progress value equals the guarded
formula `min(consumed / max(target, 1) × 100, 100)` with epsilon 1, the
guarded denominators are strictly positive (no NaN or Infinity can arise),
every value is at most 100, the needs and wants buckets lie in [0, 100]
whenever total expenses are nonnegative, and the savings bucket lies in
[0, 100] whenever total savings are nonnegative (it is negative, clamped
above only, when savings are negative). -/
theorem budget_progress_amended (fd : FinancialData) :
    (budgetRules fd).map (fun b => b.value) =
      [bucketProgress (fd.totalExpenses * (5/10)) (fd.totalIncome * (5/10)),
       bucketProgress (fd.totalExpenses * (3/10)) (fd.totalIncome * (3/10)),
       bucketProgress fd.totalSavings (fd.totalIncome * (2/10))] ∧
    (0 < max (fd.totalIncome * (5/10)) 1 ∧ 0 < max (fd.totalIncome * (3/10)) 1 ∧
      0 < max (fd.totalIncome * (2/10)) 1) ∧
    (∀ b ∈ budgetRules fd, b.value ≤ 100) ∧
    (0 ≤ fd.totalExpenses →
      0 ≤ bucketProgress (fd.totalExpenses * (5/10)) (fd.totalIncome * (5/10)) ∧
      0 ≤ bucketProgress (fd.totalExpenses * (3/10)) (fd.totalIncome * (3/10))) ∧
    (0 ≤ fd.totalSavings → 0 ≤ bucketProgress fd.totalSavings (fd.totalIncome * (2/10))) := by
  refine ⟨rfl, ?_, ?_, ?_, ?_⟩
  · exact ⟨lt_max_iff.mpr (Or.inr one_pos), lt_max_iff.mpr (Or.inr one_pos),
      lt_max_iff.mpr (Or.inr one_pos)⟩
  · intro b hb
    have hb2 := by simpa [budgetRules] using hb
    rcases hb2 with rfl | rfl | rfl <;> exact min_le_right _ _
  · intro he
    exact ⟨bucketProgress_nonneg _ (by positivity),
      bucketProgress_nonneg _ (by positivity)⟩
  · intro hsav
    exact bucketProgress_nonneg _ hsav

/-- Closed instance of `budget_progress_amended` at the scenario-A aggregate
(income 45000, expenses 8200, savings 36800), with both nonnegativity
hypotheses discharged. -/
theorem budget_progress_amended_check :
    (budgetRules ⟨45000, 8200, 36800, [], [], []⟩).map (fun b => b.value) =
      [bucketProgress ((8200 : ℚ) * (5/10)) ((45000 : ℚ) * (5/10)),
       bucketProgress ((8200 : ℚ) * (3/10)) ((45000 : ℚ) * (3/10)),
       bucketProgress (36800 : ℚ) ((45000 : ℚ) * (2/10))] ∧
    0 ≤ bucketProgress ((8200 : ℚ) * (5/10)) ((45000 : ℚ) * (5/10)) ∧
    0 ≤ bucketProgress ((8200 : ℚ) * (3/10)) ((45000 : ℚ) * (3/10)) ∧
    0 ≤ bucketProgress (36800 : ℚ) ((45000 : ℚ) * (2/10)) := by
  have h := budget_progress_amended ⟨45000, 8200, 36800, [], [], []⟩
  exact ⟨h.1, (h.2.2.2.1 (by norm_num)).1, (h.2.2.2.1 (by norm_num)).2,
    h.2.2.2.2 (by norm_num)⟩

end FinPath
